import Mathlib

/-!
Verification of the trail-ribbon subsystem of the stylised-word-project
repository (components `ProperRibbons.jsx`, `SpeedRibbons.jsx`,
`SpeedTrails` in `SwarmControl.jsx`, and the pooled-buffer
`OptimizedRibbons` variant).

Coordinates and times are modelled as exact rationals.  The underlying
math library (`Math.sqrt`, `Math.cos`, `Math.sin`, `Math.atan2`,
`Math.PI`) is treated as an external primitive: every computation that
consults it takes a `FloatOps` record of those functions.  Theorems that
need a property of a library function (for example that `sqrt` is exact
on a particular square) take it as an explicit hypothesis, and concrete
evaluations use the executable stub `testOps`.
-/

namespace Ribbons

/-- A 3-component vector (`THREE.Vector3`) over exact rationals. -/
structure Vec3 where
  x : ℚ
  y : ℚ
  z : ℚ
deriving DecidableEq, Repr

namespace Vec3

/-- Componentwise addition (`Vector3.add`). -/
def add (a b : Vec3) : Vec3 := ⟨a.x + b.x, a.y + b.y, a.z + b.z⟩

/-- Componentwise subtraction (`Vector3.subVectors`). -/
def sub (a b : Vec3) : Vec3 := ⟨a.x - b.x, a.y - b.y, a.z - b.z⟩

/-- Scalar multiple (`Vector3.multiplyScalar`). -/
def smul (c : ℚ) (a : Vec3) : Vec3 := ⟨c * a.x, c * a.y, c * a.z⟩

/-- Negation (`Vector3.negate`). -/
def neg (a : Vec3) : Vec3 := ⟨-a.x, -a.y, -a.z⟩

/-- Cross product (`Vector3.crossVectors`). -/
def cross (a b : Vec3) : Vec3 :=
  ⟨a.y * b.z - a.z * b.y, a.z * b.x - a.x * b.z, a.x * b.y - a.y * b.x⟩

/-- Squared Euclidean length (`Vector3.lengthSq`). -/
def lensq (a : Vec3) : ℚ := a.x * a.x + a.y * a.y + a.z * a.z

/-- Squared distance between two points (`Vector3.distanceToSquared`). -/
def distSq (a b : Vec3) : ℚ := lensq (sub a b)

/-- The zero vector (`new THREE.Vector3()`). -/
def zero : Vec3 := ⟨0, 0, 0⟩

/-- The world up vector `(0, 1, 0)` used throughout the ribbon code. -/
def up : Vec3 := ⟨0, 1, 0⟩

end Vec3

/-- The floating-point math library consumed by the ribbon code
(`Math.sqrt`, `Math.cos`, `Math.sin`, `Math.atan2`, `Math.PI`),
modelled as an external collaborator supplying rational-valued
functions. -/
structure FloatOps where
  sqrt : ℚ → ℚ
  cos : ℚ → ℚ
  sin : ℚ → ℚ
  atan2 : ℚ → ℚ → ℚ
  pi : ℚ

/-- THREE `Vector3.length()`: `sqrt` of the squared length, via the library. -/
def vlen (ops : FloatOps) (a : Vec3) : ℚ := ops.sqrt (Vec3.lensq a)

/-- THREE `Vector3.distanceTo`: library `sqrt` of the squared distance. -/
def vdist (ops : FloatOps) (a b : Vec3) : ℚ := ops.sqrt (Vec3.distSq a b)

/-- THREE `Vector3.normalize()` divides by `this.length() || 1`, so a
vector whose computed length is `0` is returned unchanged. -/
def normalizeV (ops : FloatOps) (a : Vec3) : Vec3 :=
  let l := vlen ops a
  if l = 0 then a else Vec3.smul (1 / l) a

/-- THREE `MathUtils.lerp(x, y, t) = (1 - t) * x + t * y`. -/
def lerpQ (x y t : ℚ) : ℚ := (1 - t) * x + t * y

/-- Executable stub for the math library, used to evaluate the model at
concrete inputs.  `sqrt` is exact on the squares that appear in the
concrete scenarios and `0` elsewhere; the trigonometric entries are
constant stubs (no concrete claim depends on their values). -/
def testOps : FloatOps where
  sqrt := fun q =>
    if q = 1 then 1 else if q = 9 / 10000 then 3 / 100 else if q = 4 then 2 else 0
  cos := fun _ => 0
  sin := fun _ => 0
  atan2 := fun _ _ => 0
  pi := 0

/-- One sample of the moving point's history: position, velocity and
creation time (`{ position, velocity, timestamp }`). -/
structure TrailPoint where
  position : Vec3
  velocity : Vec3
  timestamp : ℚ
deriving DecidableEq, Repr

/-- The per-component mutable trail state: the newest-first history
buffer (`trailHistory.current`) and the last recorded position
(`lastPosition.current`). -/
structure TrailState where
  trail : List TrailPoint
  lastPosition : Vec3
deriving DecidableEq, Repr

/-! ### Trail recording and pruning

`recordStep` embeds the movement-gated recording common to
`ProperRibbons.jsx` (`useFrame`, lines 185-209), `SpeedRibbons.jsx`
(lines 147-162) and the `SpeedTrails` component (lines 237-256 of its
file); the three differ only in the constants `MOVEMENT_THRESHOLD`,
`MAX_TRAIL_LENGTH` and in the velocity bookkeeping, so the threshold and
maximum are parameters.  `pruneStep` embeds the age filter that each of
those components runs every frame. -/

/-- Movement-gated recording: when the distance from the last recorded
position exceeds `threshold`, prepend a new timestamped point
(`unshift`), truncate the buffer to `maxLen` (`slice(0, MAX)`), and
remember the position; otherwise do nothing. -/
def recordStep (ops : FloatOps) (threshold : ℚ) (maxLen : ℕ)
    (s : TrailState) (pos : Vec3) (delta t : ℚ) : TrailState :=
  let distance := vdist ops pos s.lastPosition
  if distance > threshold then
    let velocity :=
      if delta > 0 then Vec3.smul (1 / delta) (Vec3.sub pos s.lastPosition)
      else Vec3.zero
    let tr1 := { position := pos, velocity := velocity, timestamp := t } :: s.trail
    let tr2 := if tr1.length > maxLen then tr1.take maxLen else tr1
    { trail := tr2, lastPosition := pos }
  else s

/-- Age pruning: keep exactly the points with `now - timestamp < lifetime`
(the `filter` over `trailHistory.current`). -/
def pruneStep (lifetime t : ℚ) (trail : List TrailPoint) : List TrailPoint :=
  trail.filter (fun p => t - p.timestamp < lifetime)

/-- Input to one frame callback: current position, frame delta time, and
the clock reading (`Date.now()` / `performance.now()`). -/
structure FrameIn where
  pos : Vec3
  delta : ℚ
  time : ℚ
deriving DecidableEq, Repr

/-- One frame of the `ProperRibbons`-style `useFrame` body restricted to
the history buffer: record (movement-gated) then prune by age. -/
def frameStep (ops : FloatOps) (threshold : ℚ) (maxLen : ℕ) (lifetime : ℚ)
    (s : TrailState) (f : FrameIn) : TrailState :=
  let s1 := recordStep ops threshold maxLen s f.pos f.delta f.time
  { s1 with trail := pruneStep lifetime f.time s1.trail }

/-- Run a sequence of frames over the trail state. -/
def runTrail (ops : FloatOps) (threshold : ℚ) (maxLen : ℕ) (lifetime : ℚ)
    (s : TrailState) (fs : List FrameIn) : TrailState :=
  fs.foldl (frameStep ops threshold maxLen lifetime) s

/-- The trail-history invariant claimed by the spec: bounded length, all
surviving points younger than `lifetime` at time `now`, no timestamp in
the future, and timestamps non-increasing front-to-back (newest first,
i.e. non-decreasing in insertion order). -/
def trailInv (maxLen : ℕ) (lifetime now : ℚ) (trail : List TrailPoint) : Prop :=
  trail.length ≤ maxLen ∧
  (∀ p ∈ trail, now - p.timestamp < lifetime) ∧
  (∀ p ∈ trail, p.timestamp ≤ now) ∧
  trail.Pairwise (fun a b => b.timestamp ≤ a.timestamp)

instance (maxLen : ℕ) (lifetime now : ℚ) (trail : List TrailPoint) :
    Decidable (trailInv maxLen lifetime now trail) := by
  unfold trailInv; infer_instance

/-- Constant `MOVEMENT_THRESHOLD` of `ProperRibbons.jsx`. -/
def prMovementThreshold : ℚ := 2 / 100

/-- Constant `MAX_TRAIL_LENGTH` of `ProperRibbons.jsx`. -/
def prMaxTrailLength : ℕ := 15

/-- Constant `TRAIL_LIFETIME` of `ProperRibbons.jsx` (milliseconds). -/
def prTrailLifetime : ℚ := 3000

/-- Constant `MOVEMENT_THRESHOLD` of the pooled `OptimizedRibbons` variant. -/
def optMovementThreshold : ℚ := 3 / 100

/-- Constant `MAX_TRAIL_POINTS` of the pooled `OptimizedRibbons` variant. -/
def optMaxTrailPoints : ℕ := 20

/-- Constant `TRAIL_LIFETIME` of the pooled `OptimizedRibbons` variant. -/
def optTrailLifetime : ℚ := 3500

/-- Constant `UPDATE_FREQUENCY` of the pooled `OptimizedRibbons` variant. -/
def optUpdateFrequency : ℕ := 3

/-- Function `updateTrailHistory` of the pooled variant (part_000, lines
101-129): returns early when the movement distance is *strictly below*
the threshold; otherwise prepends a new point whose velocity is the
position difference divided by `delta` when `delta > 0` (and the raw
difference otherwise, since the division is skipped), truncates the
buffer to `MAX_TRAIL_POINTS` by assigning `length`, and updates the last
position.  Result: new trail, new last position, and the `true`/`false`
"trail updated" flag. -/
def updateTrailHistory (ops : FloatOps) (trail : List TrailPoint)
    (lastPos pos : Vec3) (delta t : ℚ) : List TrailPoint × Vec3 × Bool :=
  let distance := vdist ops pos lastPos
  if distance < optMovementThreshold then (trail, lastPos, false)
  else
    let diff := Vec3.sub pos lastPos
    let velocity := if delta > 0 then Vec3.smul (1 / delta) diff else diff
    let tr1 := { position := pos, velocity := velocity, timestamp := t } :: trail
    let tr2 := if tr1.length > optMaxTrailPoints then tr1.take optMaxTrailPoints else tr1
    (tr2, pos, true)

/-! ### Spawn-point projectors -/

/-- Constant `RIBBON_COUNT` of `ProperRibbons.jsx`. -/
def prRibbonCount : ℕ := 6

/-- The backward/right/up basis computed at the top of
`getBackSpawnPoints` (`ProperRibbons.jsx`, lines 54-62): the backward
direction is the negated normalized velocity when `velocity.length() >
0.001` and the default `(0, 0, -1)` otherwise; the other two axes are
normalized cross products. -/
def backBasis (ops : FloatOps) (velocity : Vec3) : Vec3 × Vec3 × Vec3 :=
  let backDirection :=
    if vlen ops velocity > 1 / 1000 then Vec3.neg (normalizeV ops velocity)
    else ⟨0, 0, -1⟩
  let rightVector := normalizeV ops (Vec3.cross backDirection Vec3.up)
  let upVector := normalizeV ops (Vec3.cross rightVector backDirection)
  (backDirection, rightVector, upVector)

/-- The list of vectors on which `getBackSpawnPoints` invokes
`Vector3.normalize()`, in evaluation order: the raw velocity (only when
its computed length exceeds `0.001`), then the two cross products that
build the ring basis. -/
def normalizeArgsBack (ops : FloatOps) (velocity : Vec3) : List Vec3 :=
  let b := backBasis ops velocity
  (if vlen ops velocity > 1 / 1000 then [velocity] else []) ++
    [Vec3.cross b.1 Vec3.up, Vec3.cross b.2.1 b.1]

/-- Function `getBackSpawnPoints` (`ProperRibbons.jsx`, lines 51-81): a ring of
`RIBBON_COUNT` spawn points placed behind the sphere in the
velocity-oriented basis. -/
def getBackSpawnPoints (ops : FloatOps) (position velocity : Vec3) : List Vec3 :=
  let b := backBasis ops velocity
  (List.range prRibbonCount).map (fun (i : ℕ) =>
    let angle := ((i : ℚ) / (prRibbonCount : ℚ)) * ops.pi * 2
    let radius : ℚ := 11 / 10
    let offset := Vec3.add (Vec3.smul (ops.cos angle * radius * (7 / 10)) b.2.1)
        (Vec3.smul (ops.sin angle * radius * (2 / 5)) b.2.2)
    Vec3.add (Vec3.add position (Vec3.smul (radius * (4 / 5)) b.1)) offset)

/-- Constant `spawnAngles` of the pooled variant (part_000, lines 75-83): four
corner angles (`Math.PI * 1.2`, `Math.PI * 0.8`) with heights `0.2` /
`-0.15`. -/
def spawnAngles (ops : FloatOps) : List (ℚ × ℚ) :=
  [(ops.pi * (6 / 5), 1 / 5), (ops.pi * (4 / 5), 1 / 5),
   (ops.pi * (4 / 5), -(3 / 20)), (ops.pi * (6 / 5), -(3 / 20))]

/-- Function `calculateSpawnOffset` of the pooled variant (part_000, lines
132-180): static corner placement blended towards a velocity-rotated
placement by the clamped velocity strength. -/
def calculateSpawnOffset (ops : FloatOps) (velocity : Vec3) (ribbonIndex : ℕ) : Vec3 :=
  let corner := (spawnAngles ops).getD ribbonIndex (0, 0)
  let angle := corner.1
  let height := corner.2
  let spawnDistance : ℚ := 4 / 5
  let velocityLength := vlen ops velocity
  let velocityStrength := min (velocityLength / (1 / 10)) 1
  let staticX := ops.cos angle * spawnDistance
  let staticZ := ops.sin angle * spawnDistance
  if velocityLength > 1 / 1000 then
    let velNorm := normalizeV ops velocity
    let movementYaw := ops.atan2 velNorm.x velNorm.z
    let localX := ops.cos angle * spawnDistance
    let localZ := ops.sin angle * spawnDistance
    let rotatedX := localX * ops.cos movementYaw - localZ * ops.sin movementYaw
    let rotatedZ := localX * ops.sin movementYaw + localZ * ops.cos movementYaw
    ⟨lerpQ staticX rotatedX velocityStrength, height, lerpQ staticZ rotatedZ velocityStrength⟩
  else ⟨staticX, height, staticZ⟩

/-- Constant `RIBBON_COUNT` of the `SpeedTrails` component. -/
def stRibbonCount : ℕ := 8

/-- Constant `TRAIL_LIFETIME` of the `SpeedTrails` component. -/
def stTrailLifetime : ℚ := 2500

/-- Function `getSpawnPoints` of the `SpeedTrails` component (lines 96-132):
a flat static ring when the velocity length is below `0.001`, otherwise
a vertically flattened ring behind the movement direction. -/
def getSpawnPoints (ops : FloatOps) (position velocity : Vec3) (count : ℕ) : List Vec3 :=
  if vlen ops velocity < 1 / 1000 then
    (List.range count).map (fun (i : ℕ) =>
      let angle := ((i : ℚ) / (count : ℚ)) * ops.pi * 2
      Vec3.add position ⟨ops.cos angle * (11 / 10), 0, ops.sin angle * (11 / 10)⟩)
  else
    let backwardDir := Vec3.neg (normalizeV ops velocity)
    let rightDir := normalizeV ops (Vec3.cross backwardDir Vec3.up)
    let upDir := normalizeV ops (Vec3.cross rightDir backwardDir)
    (List.range count).map (fun (i : ℕ) =>
      let angle := ((i : ℚ) / (count : ℚ)) * ops.pi * 2
      let ringOffset := Vec3.add (Vec3.smul (ops.cos angle * (11 / 10)) rightDir)
          (Vec3.smul (ops.sin angle * (11 / 10) * (1 / 2)) upDir)
      Vec3.add (Vec3.add position (Vec3.smul ((11 / 10) * (4 / 5)) backwardDir)) ringOffset)

/-! ### Pooled-buffer ribbon mesh builder (part_000, `updateRibbonGeometry`) -/

/-- Default trail point used for (never-taken) out-of-bounds reads. -/
def defaultTrailPoint : TrailPoint := ⟨Vec3.zero, Vec3.zero, 0⟩

/-- The pooled variant's per-ribbon material color (part_000, lines
53-59): warm off-white with a per-ribbon variation. -/
def optRibbonColor (i : ℕ) : Vec3 :=
  let variation := ((i : ℚ) / 4) * (5 / 100)
  ⟨95 / 100 + variation * (2 / 100), 93 / 100 + variation * (1 / 100),
   88 / 100 - variation * (1 / 100)⟩

/-- Output of one pooled-buffer rebuild: the written prefixes of the
pre-allocated position/color/index buffers, the valid vertex and index
counts, and the draw range uploaded via `setDrawRange`. -/
structure RibbonGeom where
  positions : List ℚ
  colors : List ℚ
  indices : List ℕ
  vertexCount : ℕ
  indexCount : ℕ
  drawRange : ℕ
deriving DecidableEq, Repr

/-- The all-empty geometry (nothing written yet). -/
def emptyRibbonGeom : RibbonGeom := ⟨[], [], [], 0, 0, 0⟩

/-- Age fade of the pooled variant: `max(0, 1 - age / lifetime)`. -/
def optAgeFade (lifetime now ts : ℚ) : ℚ := max 0 (1 - (now - ts) / lifetime)

/-- Position fade of the pooled variant: `max(0.1, 1 - progress * 0.8)`
at trail index `i` of a trail of length `len`. -/
def optPositionFade (len i : ℕ) : ℚ :=
  max (1 / 10) (1 - ((i : ℚ) / ((len : ℚ) - 1)) * (8 / 10))

/-- The combined per-segment alpha of the pooled variant (part_000,
lines 212-219): age fade times position fade times `0.8`. -/
def segAlphaOpt (lifetime now : ℚ) (trail : List TrailPoint) (i : ℕ) : ℚ :=
  optAgeFade lifetime now ((trail.getD i defaultTrailPoint).timestamp) *
    optPositionFade trail.length i * (4 / 5)

/-- One iteration of the pooled builder's segment loop (part_000, lines
198-280): skip the segment when the age fade is at most `0.01`;
otherwise write 4 vertices (a quad between the offset centers of trail
points `i` and `i+1`), their colors, and 6 triangle indices. -/
def optSegStep (ops : FloatOps) (lifetime : ℚ) (trail : List TrailPoint) (now : ℚ)
    (ribbonIndex : ℕ) (g : RibbonGeom) (i : ℕ) : RibbonGeom :=
  let point := trail.getD i defaultTrailPoint
  let nextPoint := trail.getD (i + 1) defaultTrailPoint
  let ageFade := optAgeFade lifetime now point.timestamp
  if ageFade ≤ 1 / 100 then g
  else
    let progress := (i : ℚ) / ((trail.length : ℚ) - 1)
    let alpha := segAlphaOpt lifetime now trail i
    let spawnOffset := calculateSpawnOffset ops point.velocity ribbonIndex
    let center := Vec3.add point.position spawnOffset
    let nextSpawnOffset := calculateSpawnOffset ops nextPoint.velocity ribbonIndex
    let nextCenter := Vec3.add nextPoint.position nextSpawnOffset
    let dir := normalizeV ops (Vec3.sub nextCenter center)
    let width := (1 / 4) * (1 / 2) * (1 - progress * (3 / 10))
    let widthX := dir.z * width
    let widthZ := -dir.x * width
    let baseIndex := g.vertexCount
    let col := Vec3.smul alpha (optRibbonColor ribbonIndex)
    { positions := g.positions ++
        [center.x - widthX, center.y, center.z - widthZ,
         center.x + widthX, center.y, center.z + widthZ,
         nextCenter.x - widthX, nextCenter.y, nextCenter.z - widthZ,
         nextCenter.x + widthX, nextCenter.y, nextCenter.z + widthZ],
      colors := g.colors ++
        [col.x, col.y, col.z, col.x, col.y, col.z,
         col.x, col.y, col.z, col.x, col.y, col.z],
      indices := g.indices ++
        [baseIndex, baseIndex + 1, baseIndex + 2,
         baseIndex + 1, baseIndex + 3, baseIndex + 2],
      vertexCount := g.vertexCount + 4,
      indexCount := g.indexCount + 6,
      drawRange := g.drawRange }

/-- Function `updateRibbonGeometry` of the pooled variant (part_000, lines
183-301): `none` models the early return for trails shorter than 2
(the geometry is not touched at all); otherwise the segment loop runs
over consecutive pairs and the draw range is set to the written index
count (or 0 when nothing was written).  The source reads the module
constant `TRAIL_LIFETIME = 3500`, passed here as the `lifetime`
argument. -/
def updateRibbonGeometry (ops : FloatOps) (lifetime : ℚ) (trail : List TrailPoint)
    (now : ℚ) (ribbonIndex : ℕ) : Option RibbonGeom :=
  if trail.length < 2 then none
  else
    let g := (List.range (trail.length - 1)).foldl
      (optSegStep ops lifetime trail now ribbonIndex) emptyRibbonGeom
    some { g with drawRange := if g.vertexCount > 0 then g.indexCount else 0 }

/-- The `k`-th vertex written into a geometry's position buffer. -/
def vertAt (positions : List ℚ) (k : ℕ) : Vec3 :=
  ⟨positions.getD (3 * k) 0, positions.getD (3 * k + 1) 0, positions.getD (3 * k + 2) 0⟩

/-! ### `ProperRibbons` ribbon mesh builder (`updateRibbons`) -/

/-- A projected path point (spawn point plus the trail timestamp). -/
structure PathPoint where
  position : Vec3
  timestamp : ℚ
deriving DecidableEq, Repr

/-- Growable geometry built by the `ProperRibbons` / `SpeedTrails`
builders: plain JS arrays for positions, colors and (possibly negative)
indices. -/
structure RibbonBuf where
  positions : List ℚ
  colors : List ℚ
  indices : List ℤ
deriving DecidableEq, Repr

/-- Combined alpha of `ProperRibbons` (lines 117-122): age fade
`max(0, 1 - age / TRAIL_LIFETIME)` times position fade
`max(0.1, 1 - progress * 0.8)`. -/
def prAlpha (now : ℚ) (len i : ℕ) (ts : ℚ) : ℚ :=
  max 0 (1 - (now - ts) / prTrailLifetime) *
    max (1 / 10) (1 - ((i : ℚ) / ((len : ℚ) - 1)) * (8 / 10))

/-- One iteration of the `ProperRibbons` path loop (lines 113-164):
skip the point when the combined alpha is below `0.01`; otherwise push
a left/right vertex pair and, when `i > 0`, six indices joining them to
the previously pushed pair (`prevIndex = vertIndex - 2`, which in JS can
be negative, hence `ℤ`). -/
def prStep (ops : FloatOps) (path : List PathPoint) (now : ℚ) (baseColor : Vec3)
    (g : RibbonBuf) (i : ℕ) : RibbonBuf :=
  let pathPoint := path.getD i ⟨Vec3.zero, 0⟩
  let alpha := prAlpha now path.length i pathPoint.timestamp
  if alpha < 1 / 100 then g
  else
    let direction :=
      if i + 1 < path.length then
        normalizeV ops (Vec3.sub (path.getD (i + 1) ⟨Vec3.zero, 0⟩).position pathPoint.position)
      else if 0 < i then
        normalizeV ops (Vec3.sub pathPoint.position (path.getD (i - 1) ⟨Vec3.zero, 0⟩).position)
      else ⟨0, 0, 1⟩
    let widthVec := Vec3.smul
        ((1 / 5) * (1 / 2) * (1 - ((i : ℚ) / ((path.length : ℚ) - 1)) * (3 / 10)))
        (normalizeV ops (Vec3.cross direction Vec3.up))
    let leftEdge := Vec3.sub pathPoint.position widthVec
    let rightEdge := Vec3.add pathPoint.position widthVec
    let vertIndex : ℤ := (g.positions.length : ℤ) / 3
    let col := Vec3.smul alpha baseColor
    { positions := g.positions ++
        [leftEdge.x, leftEdge.y, leftEdge.z, rightEdge.x, rightEdge.y, rightEdge.z],
      colors := g.colors ++ [col.x, col.y, col.z, col.x, col.y, col.z],
      indices := g.indices ++
        (if 0 < i then
          [vertIndex - 2, vertIndex - 1, vertIndex, vertIndex - 1, vertIndex + 1, vertIndex]
        else []) }

/-- The per-ribbon path of `updateRibbons` (lines 98-110): the
`ribbonIndex`-th spawn point of every trail point (skipped when that
spawn point does not exist). -/
def properBuildPath (ops : FloatOps) (trail : List TrailPoint) (ribbonIndex : ℕ) :
    List PathPoint :=
  trail.filterMap (fun p =>
    ((getBackSpawnPoints ops p.position p.velocity)[ribbonIndex]?).map
      (fun q => ⟨q, p.timestamp⟩))

/-- The `ProperRibbons` per-ribbon mesh build: the path loop folded over
all path indices. -/
def properBuildFromPath (ops : FloatOps) (path : List PathPoint) (now : ℚ)
    (baseColor : Vec3) : RibbonBuf :=
  (List.range path.length).foldl (prStep ops path now baseColor) ⟨[], [], []⟩

/-- One ribbon of `updateRibbons` (`ProperRibbons.jsx`, lines 89-178). -/
def properBuildRibbon (ops : FloatOps) (trail : List TrailPoint) (now : ℚ)
    (ribbonIndex : ℕ) (baseColor : Vec3) : RibbonBuf :=
  properBuildFromPath ops (properBuildPath ops trail ribbonIndex) now baseColor

/-- Function `updateRibbons` (`ProperRibbons.jsx`, lines 84-179): `none` models
the early return for trails shorter than 2 (no geometry written);
otherwise each of the `RIBBON_COUNT` meshes is rebuilt.  `baseColors`
supplies the externally created material colors. -/
def updateRibbons (ops : FloatOps) (trail : List TrailPoint) (now : ℚ)
    (baseColors : List Vec3) : Option (List RibbonBuf) :=
  if trail.length < 2 then none
  else some ((List.range prRibbonCount).map (fun idx =>
    properBuildRibbon ops trail now idx (baseColors.getD idx Vec3.zero)))

/-! ### `SpeedTrails` ribbon mesh builder (`updateTrailRibbons`) -/

/-- A `SpeedTrails` path point: spawn point, timestamp and the trail
point's velocity (used as the fallback direction). -/
structure STPathPoint where
  position : Vec3
  timestamp : ℚ
  velocity : Vec3
deriving DecidableEq, Repr

/-- Growable geometry of the `SpeedTrails` builder (indices are always
non-negative there). -/
structure SpeedBuf where
  positions : List ℚ
  colors : List ℚ
  indices : List ℕ
deriving DecidableEq, Repr

/-- Combined alpha of `SpeedTrails` (lines 168-173): age fade times
`max(0, 1 - progress * 1.2)` times `0.8`. -/
def stAlpha (now : ℚ) (len i : ℕ) (ts : ℚ) : ℚ :=
  max 0 (1 - (now - ts) / stTrailLifetime) *
    max 0 (1 - ((i : ℚ) / ((len : ℚ) - 1)) * (6 / 5)) * (4 / 5)

/-- One iteration of the `SpeedTrails` path loop (lines 164-216): skip
when the combined alpha is at most `0.01`; otherwise push a vertex pair
and, when `i < len - 1` and at least 4 floats have been pushed, six
indices that reference the *next* point's (not yet pushed) vertex
pair. -/
def stStep (ops : FloatOps) (path : List STPathPoint) (now : ℚ) (baseColor : Vec3)
    (g : SpeedBuf) (i : ℕ) : SpeedBuf :=
  let dfl : STPathPoint := ⟨Vec3.zero, 0, Vec3.zero⟩
  let pathPoint := path.getD i dfl
  let alpha := stAlpha now path.length i pathPoint.timestamp
  if alpha ≤ 1 / 100 then g
  else
    let direction :=
      if i + 1 < path.length then
        normalizeV ops (Vec3.sub (path.getD (i + 1) dfl).position pathPoint.position)
      else if 0 < i then
        normalizeV ops (Vec3.sub pathPoint.position (path.getD (i - 1) dfl).position)
      else normalizeV ops pathPoint.velocity
    let widthVec := Vec3.smul
        ((1 / 5) * (1 / 2) * (1 - ((i : ℚ) / ((path.length : ℚ) - 1)) * (1 / 2)))
        (normalizeV ops (Vec3.cross direction Vec3.up))
    let leftEdge := Vec3.sub pathPoint.position widthVec
    let rightEdge := Vec3.add pathPoint.position widthVec
    let newPositions := g.positions ++
      [leftEdge.x, leftEdge.y, leftEdge.z, rightEdge.x, rightEdge.y, rightEdge.z]
    let col := Vec3.smul alpha baseColor
    let newIndices :=
      if i + 1 < path.length ∧ 4 ≤ newPositions.length then
        let baseIndex := newPositions.length / 3 - 2
        g.indices ++
          [baseIndex, baseIndex + 1, baseIndex + 2,
           baseIndex + 1, baseIndex + 3, baseIndex + 2]
      else g.indices
    { positions := newPositions,
      colors := g.colors ++ [col.x, col.y, col.z, col.x, col.y, col.z],
      indices := newIndices }

/-- The per-ribbon path of `updateTrailRibbons` (lines 148-161). -/
def speedBuildPath (ops : FloatOps) (trail : List TrailPoint) (ribbonIndex : ℕ) :
    List STPathPoint :=
  trail.filterMap (fun p =>
    ((getSpawnPoints ops p.position p.velocity stRibbonCount)[ribbonIndex]?).map
      (fun q => ⟨q, p.timestamp, p.velocity⟩))

/-- One ribbon of `updateTrailRibbons` (`SpeedTrails`, lines 139-228). -/
def speedBuildRibbon (ops : FloatOps) (trail : List TrailPoint) (now : ℚ)
    (ribbonIndex : ℕ) (baseColor : Vec3) : SpeedBuf :=
  let path := speedBuildPath ops trail ribbonIndex
  (List.range path.length).foldl (stStep ops path now baseColor) ⟨[], [], []⟩

/-- Function `updateTrailRibbons` (`SpeedTrails`, lines 135-229): `none` models
the early return for trails shorter than 2. -/
def updateTrailRibbons (ops : FloatOps) (trail : List TrailPoint) (now : ℚ)
    (baseColors : List Vec3) : Option (List SpeedBuf) :=
  if trail.length < 2 then none
  else some ((List.range stRibbonCount).map (fun idx =>
    speedBuildRibbon ops trail now idx (baseColors.getD idx Vec3.zero)))

/-! ### Pooled-variant per-frame orchestration (part_000, `useFrame`) -/

/-- Full per-instance state of the pooled `OptimizedRibbons` component:
trail buffer, last recorded position, frame counter, the one-shot
first-frame flag (`isInitialized`, a ref that is *not* reset on
disable), and the draw range of each of the four ribbon geometries. -/
structure OptState where
  trail : List TrailPoint
  lastPosition : Vec3
  frameCounter : ℕ
  initDone : Bool
  drawRanges : List ℕ
deriving DecidableEq, Repr

/-- Constant `RIBBON_COUNT` of the pooled variant. -/
def optRibbonCount : ℕ := 4

/-- Rebuild of all four pooled ribbon geometries (part_000, lines
349-352): each geometry's draw range becomes the rebuilt one; an early
`return` (trail shorter than 2) leaves the old draw range in place. -/
def optRebuildRanges (ops : FloatOps) (trail : List TrailPoint) (now : ℚ)
    (old : List ℕ) : List ℕ :=
  (List.range optRibbonCount).map (fun i =>
    match updateRibbonGeometry ops optTrailLifetime trail now i with
    | some g => g.drawRange
    | none => old.getD i 0)

/-- One `useFrame` callback of the pooled variant (part_000, lines
307-354).  `enabled` stands for the combined guard
`enabled && sphereRef?.current && mode !== 'off'`.  The first enabled
frame only initializes (pushes the current position with zero velocity
and returns).  Afterwards the frame counter is incremented, the trail is
updated every tick, and pruning plus geometry rebuild run exactly when
`frameCounter % UPDATE_FREQUENCY === 0` or a trail point was just
recorded. -/
def optFrame (ops : FloatOps) (enabled : Bool) (s : OptState) (pos : Vec3)
    (delta t : ℚ) : OptState :=
  if !enabled then s
  else if !s.initDone then
    { s with trail := s.trail ++ [⟨pos, Vec3.zero, t⟩], lastPosition := pos, initDone := true }
  else
    let fc := s.frameCounter + 1
    let r := updateTrailHistory ops s.trail s.lastPosition pos delta t
    if fc % optUpdateFrequency = 0 ∨ r.2.2 = true then
      let pruned := pruneStep optTrailLifetime t r.1
      { trail := pruned, lastPosition := r.2.1, frameCounter := fc, initDone := true,
        drawRanges := optRebuildRanges ops pruned t s.drawRanges }
    else
      { trail := r.1, lastPosition := r.2.1, frameCounter := fc, initDone := true,
        drawRanges := s.drawRanges }

/-- The `useEffect` cleanup on `enabled === false || mode === 'off'`
(part_000, lines 357-366): the trail buffer is emptied and every
geometry's draw range is set to 0; nothing else (in particular not the
`isInitialized` flag) is reset. -/
def optDisable (s : OptState) : OptState :=
  { s with trail := [], drawRanges := s.drawRanges.map (fun _ => 0) }

/-- Chained non-decreasing clock readings starting from `t0`: the
monotonicity guarantee of `Date.now()` / `performance.now()` across
frames. -/
def timesChain : ℚ → List FrameIn → Prop
  | _, [] => True
  | t0, f :: rest => t0 ≤ f.time ∧ timesChain f.time rest

instance timesChainDecidable : (t0 : ℚ) → (fs : List FrameIn) → Decidable (timesChain t0 fs)
  | _, [] => isTrue trivial
  | t0, f :: rest =>
    have : Decidable (timesChain f.time rest) := timesChainDecidable f.time rest
    inferInstanceAs (Decidable (_ ∧ _))

/-- Clock reading after the last of the frames `fs` (or `t0` if none). -/
def lastTime : ℚ → List FrameIn → ℚ
  | t0, [] => t0
  | _, f :: rest => lastTime f.time rest

/-! ## Helper lemmas -/

theorem pruneStep_sublist (lifetime t : ℚ) (trail : List TrailPoint) :
    (pruneStep lifetime t trail).Sublist trail :=
  List.filter_sublist trail

theorem mem_pruneStep {lifetime t : ℚ} {trail : List TrailPoint} {p : TrailPoint}
    (hp : p ∈ pruneStep lifetime t trail) : p ∈ trail ∧ t - p.timestamp < lifetime := by
  unfold pruneStep at hp
  simpa using List.mem_filter.mp hp

theorem truncate_sublist (tr1 : List TrailPoint) (n : ℕ) :
    (if tr1.length > n then tr1.take n else tr1).Sublist tr1 := by
  split
  · exact List.take_sublist _ _
  · exact List.Sublist.refl _

theorem truncate_length (tr1 : List TrailPoint) (n : ℕ) (h : tr1.length ≤ n + 1) :
    (if tr1.length > n then tr1.take n else tr1).length ≤ n := by
  split
  next hgt => simp [List.length_take]
  next hng => omega

theorem truncate_head (tr1 : List TrailPoint) (n : ℕ) (hn : 0 < n) :
    (if tr1.length > n then tr1.take n else tr1).head? = tr1.head? := by
  split
  · cases tr1 with
    | nil => simp
    | cons a l =>
      cases n with
      | zero => omega
      | succ m => rfl
  · rfl

theorem recordStep_cases (ops : FloatOps) (threshold : ℚ) (maxLen : ℕ)
    (s : TrailState) (pos : Vec3) (delta t : ℚ) :
    recordStep ops threshold maxLen s pos delta t = s ∨
    ∃ v tr2, recordStep ops threshold maxLen s pos delta t = ⟨tr2, pos⟩ ∧
      tr2.Sublist (({ position := pos, velocity := v, timestamp := t } : TrailPoint) :: s.trail) ∧
      (s.trail.length ≤ maxLen → tr2.length ≤ maxLen) := by
  simp only [recordStep]
  split
  · right
    exact ⟨_, _, rfl, truncate_sublist _ _,
      fun h => truncate_length _ _ (by simpa using Nat.succ_le_succ h)⟩
  · left; rfl

theorem frameStep_inv (ops : FloatOps) (threshold : ℚ) (maxLen : ℕ) (lifetime : ℚ)
    (s : TrailState) (f : FrameIn) (t0 : ℚ)
    (hinv : trailInv maxLen lifetime t0 s.trail) (ht : t0 ≤ f.time) :
    trailInv maxLen lifetime f.time (frameStep ops threshold maxLen lifetime s f).trail := by
  obtain ⟨hlen, -, hts, hpw⟩ := hinv
  have hts2 : ∀ p ∈ s.trail, p.timestamp ≤ f.time := fun p hp => le_trans (hts p hp) ht
  have key : ∀ tr : List TrailPoint, tr.length ≤ maxLen →
      (∀ p ∈ tr, p.timestamp ≤ f.time) →
      tr.Pairwise (fun a b => b.timestamp ≤ a.timestamp) →
      trailInv maxLen lifetime f.time (pruneStep lifetime f.time tr) := by
    intro tr h1 h2 h3
    refine ⟨le_trans (List.Sublist.length_le (pruneStep_sublist _ _ _)) h1, ?_, ?_, ?_⟩
    · intro p hp; exact (mem_pruneStep hp).2
    · intro p hp; exact h2 p (mem_pruneStep hp).1
    · exact List.Pairwise.sublist (pruneStep_sublist _ _ _) h3
  have hfs : (frameStep ops threshold maxLen lifetime s f).trail =
      pruneStep lifetime f.time (recordStep ops threshold maxLen s f.pos f.delta f.time).trail := rfl
  rw [hfs]
  rcases recordStep_cases ops threshold maxLen s f.pos f.delta f.time with
    h | ⟨v, tr2, heq, hsub, hlen2⟩
  · rw [h]; exact key s.trail hlen hts2 hpw
  · rw [heq]
    refine key tr2 (hlen2 hlen) ?_ ?_
    · intro p hp
      rcases List.mem_cons.mp (hsub.subset hp) with rfl | hmem
      · exact le_refl _
      · exact hts2 p hmem
    · exact List.Pairwise.sublist hsub
        (List.pairwise_cons.mpr ⟨fun q hq => hts2 q hq, hpw⟩)

theorem runTrail_inv_aux (ops : FloatOps) (threshold : ℚ) (maxLen : ℕ) (lifetime : ℚ) :
    ∀ (fs : List FrameIn) (s : TrailState) (t0 : ℚ),
      trailInv maxLen lifetime t0 s.trail → timesChain t0 fs →
      trailInv maxLen lifetime (lastTime t0 fs)
        (runTrail ops threshold maxLen lifetime s fs).trail
  | [], _, _, hinv, _ => hinv
  | f :: rest, s, t0, hinv, hchain =>
      runTrail_inv_aux ops threshold maxLen lifetime rest _ f.time
        (frameStep_inv ops threshold maxLen lifetime s f t0 hinv hchain.1) hchain.2

/-! ## Claim theorems -/

/-- C1.  For every sequence of per-frame record-and-prune operations on
a trail history buffer (any movement threshold, any configured maximum
length — in particular 15 for ProperRibbons/SpeedRibbons, 20 for
OptimizedRibbons, 25 for SpeedTrails — and any lifetime), started from
an empty buffer and driven by non-decreasing clock readings, after each
frame the buffer satisfies the invariant: its length is at most the
maximum, every surviving point satisfies `now - timestamp < lifetime`,
no timestamp exceeds the clock, and timestamps are non-decreasing in
insertion order (newest point at the front).  Quantifying over all
frame lists covers the state after every intermediate frame. -/
theorem trail_buffer_invariant (ops : FloatOps) (threshold : ℚ) (maxLen : ℕ)
    (lifetime : ℚ) (lp : Vec3) (t0 : ℚ) (fs : List FrameIn)
    (hchain : timesChain t0 fs) :
    trailInv maxLen lifetime (lastTime t0 fs)
      (runTrail ops threshold maxLen lifetime ⟨[], lp⟩ fs).trail :=
  runTrail_inv_aux ops threshold maxLen lifetime fs ⟨[], lp⟩ t0
    ⟨Nat.zero_le _, by simp, by simp, List.Pairwise.nil⟩ hchain

/-- Witness for C1: a concrete two-frame run with the ProperRibbons
constants, evaluated on the executable stub. -/
theorem trail_buffer_invariant_witness :
    timesChain 0 [⟨⟨1, 0, 0⟩, 1 / 60, 100⟩, ⟨⟨3, 0, 0⟩, 1 / 60, 200⟩] ∧
    trailInv prMaxTrailLength prTrailLifetime
      (lastTime 0 [⟨⟨1, 0, 0⟩, 1 / 60, 100⟩, ⟨⟨3, 0, 0⟩, 1 / 60, 200⟩])
      (runTrail testOps prMovementThreshold prMaxTrailLength prTrailLifetime
        ⟨[], Vec3.zero⟩ [⟨⟨1, 0, 0⟩, 1 / 60, 100⟩, ⟨⟨3, 0, 0⟩, 1 / 60, 200⟩]).trail :=
  ⟨by decide,
   trail_buffer_invariant testOps prMovementThreshold prMaxTrailLength prTrailLifetime
     Vec3.zero 0 [⟨⟨1, 0, 0⟩, 1 / 60, 100⟩, ⟨⟨3, 0, 0⟩, 1 / 60, 200⟩] (by decide)⟩

/-- C3, counterexample.  The claim states that `record` is a no-op
whenever the movement distance is *less than or equal to* the
threshold.  The pooled variant's `updateTrailHistory` returns early only
when `distance < MOVEMENT_THRESHOLD`; at distance exactly `0.03`
(equal to the threshold) it appends a point and reports the trail as
updated. -/
theorem record_noop_counterexample :
    vdist testOps ⟨3 / 100, 0, 0⟩ Vec3.zero = optMovementThreshold ∧
    updateTrailHistory testOps [] Vec3.zero ⟨3 / 100, 0, 0⟩ (1 / 60) 5 =
      ([⟨⟨3 / 100, 0, 0⟩, ⟨9 / 5, 0, 0⟩, 5⟩], ⟨3 / 100, 0, 0⟩, true) := by
  norm_num [vdist, updateTrailHistory, testOps, Vec3.distSq, Vec3.lensq, Vec3.sub,
    Vec3.zero, Vec3.smul, optMovementThreshold, optMaxTrailPoints]

/-- C3, amended.  In the `ProperRibbons`-shaped recorder the claim holds
verbatim: no-op at distance ≤ threshold, a point is prepended exactly
when the distance exceeds it.  In the pooled variant's
`updateTrailHistory` the no-op case is distance *strictly below* the
threshold and a point is appended already at distance equal to the
threshold. -/
theorem record_noop_amended (ops : FloatOps) :
    (∀ (threshold : ℚ) (maxLen : ℕ) (s : TrailState) (pos : Vec3) (delta t : ℚ),
      vdist ops pos s.lastPosition ≤ threshold →
      recordStep ops threshold maxLen s pos delta t = s) ∧
    (∀ (threshold : ℚ) (maxLen : ℕ) (s : TrailState) (pos : Vec3) (delta t : ℚ),
      0 < maxLen → threshold < vdist ops pos s.lastPosition →
      ∃ v, (recordStep ops threshold maxLen s pos delta t).trail.head? =
          some ⟨pos, v, t⟩ ∧
        (recordStep ops threshold maxLen s pos delta t).lastPosition = pos) ∧
    (∀ (trail : List TrailPoint) (lastPos pos : Vec3) (delta t : ℚ),
      vdist ops pos lastPos < optMovementThreshold →
      updateTrailHistory ops trail lastPos pos delta t = (trail, lastPos, false)) ∧
    (∀ (trail : List TrailPoint) (lastPos pos : Vec3) (delta t : ℚ),
      optMovementThreshold ≤ vdist ops pos lastPos →
      (updateTrailHistory ops trail lastPos pos delta t).2.2 = true ∧
      ∃ v, (updateTrailHistory ops trail lastPos pos delta t).1.head? =
          some ⟨pos, v, t⟩) := by
  refine ⟨?_, ?_, ?_, ?_⟩
  · intro threshold maxLen s pos delta t hle
    simp only [recordStep, if_neg (not_lt.mpr hle)]
  · intro threshold maxLen s pos delta t hmax hgt
    refine ⟨if delta > 0 then Vec3.smul (1 / delta) (Vec3.sub pos s.lastPosition) else Vec3.zero,
      ?_, ?_⟩
    · simp only [recordStep, if_pos hgt]
      rw [truncate_head _ _ hmax]; rfl
    · simp only [recordStep, if_pos hgt]
  · intro trail lastPos pos delta t hlt
    simp only [updateTrailHistory, if_pos hlt]
  · intro trail lastPos pos delta t hge
    have hng : ¬ vdist ops pos lastPos < optMovementThreshold := not_lt.mpr hge
    refine ⟨?_, if delta > 0 then Vec3.smul (1 / delta) (Vec3.sub pos lastPos)
        else Vec3.sub pos lastPos, ?_⟩
    · simp [updateTrailHistory, hng]
    · simp only [updateTrailHistory, if_neg hng]
      exact truncate_head _ _ (by norm_num [optMaxTrailPoints])

/-- Witness for the amended C3: all four conjuncts applied at concrete
inputs with the hypotheses discharged by evaluation. -/
theorem record_noop_amended_witness :
    recordStep testOps prMovementThreshold prMaxTrailLength ⟨[], Vec3.zero⟩
      ⟨1 / 100, 0, 0⟩ (1 / 60) 7 = ⟨[], Vec3.zero⟩ ∧
    (∃ v, (recordStep testOps prMovementThreshold prMaxTrailLength ⟨[], Vec3.zero⟩
        ⟨1, 0, 0⟩ (1 / 60) 7).trail.head? = some ⟨⟨1, 0, 0⟩, v, 7⟩ ∧
      (recordStep testOps prMovementThreshold prMaxTrailLength ⟨[], Vec3.zero⟩
        ⟨1, 0, 0⟩ (1 / 60) 7).lastPosition = ⟨1, 0, 0⟩) ∧
    updateTrailHistory testOps [] Vec3.zero ⟨1 / 100, 0, 0⟩ (1 / 60) 7 =
      ([], Vec3.zero, false) ∧
    ((updateTrailHistory testOps [] Vec3.zero ⟨1, 0, 0⟩ (1 / 60) 7).2.2 = true ∧
      ∃ v, (updateTrailHistory testOps [] Vec3.zero ⟨1, 0, 0⟩ (1 / 60) 7).1.head? =
        some ⟨⟨1, 0, 0⟩, v, 7⟩) :=
  ⟨(record_noop_amended testOps).1 prMovementThreshold prMaxTrailLength ⟨[], Vec3.zero⟩
      ⟨1 / 100, 0, 0⟩ (1 / 60) 7
      (by norm_num [vdist, testOps, Vec3.distSq, Vec3.lensq, Vec3.sub, Vec3.zero,
        prMovementThreshold]),
   (record_noop_amended testOps).2.1 prMovementThreshold prMaxTrailLength ⟨[], Vec3.zero⟩
      ⟨1, 0, 0⟩ (1 / 60) 7 (by norm_num [prMaxTrailLength])
      (by norm_num [vdist, testOps, Vec3.distSq, Vec3.lensq, Vec3.sub, Vec3.zero,
        prMovementThreshold]),
   (record_noop_amended testOps).2.2.1 [] Vec3.zero ⟨1 / 100, 0, 0⟩ (1 / 60) 7
      (by norm_num [vdist, testOps, Vec3.distSq, Vec3.lensq, Vec3.sub, Vec3.zero,
        optMovementThreshold]),
   (record_noop_amended testOps).2.2.2 [] Vec3.zero ⟨1, 0, 0⟩ (1 / 60) 7
      (by norm_num [vdist, testOps, Vec3.distSq, Vec3.lensq, Vec3.sub, Vec3.zero,
        optMovementThreshold])⟩

/-- C7.  For every trail containing one point or fewer, all three
ribbon mesh builders return through the early guard without writing any
geometry (so zero triangles are emitted). -/
theorem single_point_no_triangles (ops : FloatOps) (lifetime now : ℚ)
    (trail : List TrailPoint) (baseColors : List Vec3) (ribbonIndex : ℕ)
    (h : trail.length < 2) :
    updateRibbonGeometry ops lifetime trail now ribbonIndex = none ∧
    updateRibbons ops trail now baseColors = none ∧
    updateTrailRibbons ops trail now baseColors = none := by
  unfold updateRibbonGeometry updateRibbons updateTrailRibbons
  simp [h]

/-- Witness for C7: a one-point trail on the executable stub. -/
theorem single_point_no_triangles_witness :
    updateRibbonGeometry testOps optTrailLifetime [defaultTrailPoint] 0 0 = none ∧
    updateRibbons testOps [defaultTrailPoint] 0 [] = none ∧
    updateTrailRibbons testOps [defaultTrailPoint] 0 [] = none :=
  single_point_no_triangles testOps optTrailLifetime 0 [defaultTrailPoint] [] 0 (by decide)

/-- C2, counterexample.  The claim states the spawn-point projector
never normalizes a zero-length vector for any input velocity.  For the
purely vertical velocity `(0, 1, 0)` — whose computed length `1` passes
the `> 0.001` guard — `getBackSpawnPoints` computes
`crossVectors(backDirection, up) = (0, 0, 0)` and calls `normalize()` on
that zero-length vector. -/
theorem spawn_normalize_counterexample :
    vlen testOps ⟨0, 1, 0⟩ > 1 / 1000 ∧
    (⟨0, 0, 0⟩ : Vec3) ∈ normalizeArgsBack testOps ⟨0, 1, 0⟩ ∧
    Vec3.lensq ⟨0, 0, 0⟩ = 0 := by
  norm_num [normalizeArgsBack, backBasis, vlen, testOps, Vec3.lensq, normalizeV,
    Vec3.neg, Vec3.smul, Vec3.cross, Vec3.up, List.mem_cons]

/-- C2, amended.  The *velocity* is never normalized when its computed
length is not above `0.001`; in particular for velocity `(0, 0, 0)`
(with `sqrt 0 = 0` and `sqrt 1 = 1` as in the JS math library) no
zero-length vector reaches `normalize()`, and the returned fallback ring
is the fixed function of the position and ribbon index below — identical
across calls with the same position.  (Only for velocities that pass the
guard can an internal cross product be zero-length, as the
counterexample shows.) -/
theorem spawn_zero_velocity_fallback (ops : FloatOps) (position : Vec3)
    (h0 : ops.sqrt 0 = 0) (h1 : ops.sqrt 1 = 1) :
    (∀ v ∈ normalizeArgsBack ops Vec3.zero, Vec3.lensq v ≠ 0) ∧
    getBackSpawnPoints ops position Vec3.zero =
      (List.range prRibbonCount).map (fun (i : ℕ) =>
        ⟨position.x + ops.cos (((i : ℚ) / (prRibbonCount : ℚ)) * ops.pi * 2) * (77 / 100),
         position.y + ops.sin (((i : ℚ) / (prRibbonCount : ℚ)) * ops.pi * 2) * (11 / 25),
         position.z - 22 / 25⟩) := by
  have hv : vlen ops Vec3.zero = 0 := by
    simpa [vlen, Vec3.lensq, Vec3.zero] using h0
  have hguard : ¬ vlen ops Vec3.zero > 1 / 1000 := by rw [hv]; norm_num
  have hc1 : Vec3.cross ⟨0, 0, -1⟩ Vec3.up = ⟨1, 0, 0⟩ := by
    norm_num [Vec3.cross, Vec3.up]
  have hn1 : normalizeV ops ⟨1, 0, 0⟩ = ⟨1, 0, 0⟩ := by
    norm_num [normalizeV, vlen, Vec3.lensq, Vec3.smul, h1]
  have hc2 : Vec3.cross ⟨1, 0, 0⟩ ⟨0, 0, -1⟩ = ⟨0, 1, 0⟩ := by
    norm_num [Vec3.cross]
  have hn2 : normalizeV ops ⟨0, 1, 0⟩ = ⟨0, 1, 0⟩ := by
    norm_num [normalizeV, vlen, Vec3.lensq, Vec3.smul, h1]
  have hb : backBasis ops Vec3.zero = (⟨0, 0, -1⟩, ⟨1, 0, 0⟩, ⟨0, 1, 0⟩) := by
    unfold backBasis
    rw [if_neg hguard]
    simp only [hc1, hn1, hc2, hn2]
  constructor
  · intro v hvmem
    unfold normalizeArgsBack at hvmem
    rw [hb, if_neg hguard] at hvmem
    simp only [hc1, hc2, List.nil_append, List.mem_cons, List.not_mem_nil, or_false] at hvmem
    rcases hvmem with rfl | rfl
    · norm_num [Vec3.lensq]
    · norm_num [Vec3.lensq]
  · unfold getBackSpawnPoints
    rw [hb]
    refine List.map_congr_left ?_
    intro i _
    simp only [Vec3.add, Vec3.smul, Vec3.mk.injEq]
    refine ⟨by ring, by ring, by ring⟩

/-- Witness for the amended C2: evaluated on the executable stub at
position `(1, 2, 3)`. -/
theorem spawn_zero_velocity_fallback_witness :
    (∀ v ∈ normalizeArgsBack testOps Vec3.zero, Vec3.lensq v ≠ 0) ∧
    getBackSpawnPoints testOps ⟨1, 2, 3⟩ Vec3.zero =
      (List.range prRibbonCount).map (fun (i : ℕ) =>
        ⟨(1 : ℚ) + testOps.cos (((i : ℚ) / (prRibbonCount : ℚ)) * testOps.pi * 2) * (77 / 100),
         (2 : ℚ) + testOps.sin (((i : ℚ) / (prRibbonCount : ℚ)) * testOps.pi * 2) * (11 / 25),
         (3 : ℚ) - 22 / 25⟩) :=
  spawn_zero_velocity_fallback testOps ⟨1, 2, 3⟩ (by norm_num [testOps])
    (by norm_num [testOps])

/-- Projections through the final `setDrawRange` record update. -/
theorem vertexCount_withDrawRange (g : RibbonGeom) (d : ℕ) :
    ({ g with drawRange := d } : RibbonGeom).vertexCount = g.vertexCount := rfl

theorem indexCount_withDrawRange (g : RibbonGeom) (d : ℕ) :
    ({ g with drawRange := d } : RibbonGeom).indexCount = g.indexCount := rfl

theorem positions_withDrawRange (g : RibbonGeom) (d : ℕ) :
    ({ g with drawRange := d } : RibbonGeom).positions = g.positions := rfl

theorem drawRange_withDrawRange (g : RibbonGeom) (d : ℕ) :
    ({ g with drawRange := d } : RibbonGeom).drawRange = d := rfl

/-- The `ProperRibbons` path loop appends exactly 6 position floats (2
vertices) per path index whose combined alpha passes the cutoff, and
nothing for a skipped index. -/
theorem prStep_foldl_length (ops : FloatOps) (path : List PathPoint) (now : ℚ)
    (baseColor : Vec3) (g : RibbonBuf) (l : List ℕ) :
    (l.foldl (prStep ops path now baseColor) g).positions.length =
      g.positions.length + 6 * (l.filter (fun i =>
        ¬ prAlpha now path.length i ((path.getD i ⟨Vec3.zero, 0⟩).timestamp) < 1 / 100)).length := by
  induction l generalizing g with
  | nil => simp
  | cons a l ih =>
    rw [List.foldl_cons, List.filter_cons]
    by_cases h : prAlpha now path.length a ((path.getD a ⟨Vec3.zero, 0⟩).timestamp) < 1 / 100
    · have hstep : prStep ops path now baseColor g a = g := by
        simp only [prStep]; rw [if_pos h]
      rw [hstep, ih, if_neg (by simp only [decide_eq_true_eq, not_not]; exact h)]
    · have hstep : (prStep ops path now baseColor g a).positions.length =
          g.positions.length + 6 := by
        simp only [prStep]; rw [if_neg h]
        simp
      rw [ih, hstep, if_pos (by simp only [decide_eq_true_eq]; exact h), List.length_cons]
      ring

/-- The pooled segment loop adds exactly 4 vertices per segment index
whose age fade passes the cutoff, and nothing for a skipped index. -/
theorem optSegStep_foldl_vertexCount (ops : FloatOps) (lifetime : ℚ)
    (trail : List TrailPoint) (now : ℚ) (ribbonIndex : ℕ) (g : RibbonGeom) (l : List ℕ) :
    (l.foldl (optSegStep ops lifetime trail now ribbonIndex) g).vertexCount =
      g.vertexCount + 4 * (l.filter (fun i =>
        ¬ optAgeFade lifetime now ((trail.getD i defaultTrailPoint).timestamp) ≤ 1 / 100)).length := by
  induction l generalizing g with
  | nil => simp
  | cons a l ih =>
    rw [List.foldl_cons, List.filter_cons]
    by_cases h : optAgeFade lifetime now ((trail.getD a defaultTrailPoint).timestamp) ≤ 1 / 100
    · have hstep : optSegStep ops lifetime trail now ribbonIndex g a = g := by
        simp only [optSegStep]; rw [if_pos h]
      rw [hstep, ih, if_neg (by simp only [decide_eq_true_eq, not_not]; exact h)]
    · have hstep : (optSegStep ops lifetime trail now ribbonIndex g a).vertexCount =
          g.vertexCount + 4 := by
        simp only [optSegStep]; rw [if_neg h]
      rw [ih, hstep, if_pos (by simp only [decide_eq_true_eq]; exact h), List.length_cons]
      ring

/-- The pooled segment loop adds exactly 6 indices per emitted segment. -/
theorem optSegStep_foldl_indexCount (ops : FloatOps) (lifetime : ℚ)
    (trail : List TrailPoint) (now : ℚ) (ribbonIndex : ℕ) (g : RibbonGeom) (l : List ℕ) :
    (l.foldl (optSegStep ops lifetime trail now ribbonIndex) g).indexCount =
      g.indexCount + 6 * (l.filter (fun i =>
        ¬ optAgeFade lifetime now ((trail.getD i defaultTrailPoint).timestamp) ≤ 1 / 100)).length := by
  induction l generalizing g with
  | nil => simp
  | cons a l ih =>
    rw [List.foldl_cons, List.filter_cons]
    by_cases h : optAgeFade lifetime now ((trail.getD a defaultTrailPoint).timestamp) ≤ 1 / 100
    · have hstep : optSegStep ops lifetime trail now ribbonIndex g a = g := by
        simp only [optSegStep]; rw [if_pos h]
      rw [hstep, ih, if_neg (by simp only [decide_eq_true_eq, not_not]; exact h)]
    · have hstep : (optSegStep ops lifetime trail now ribbonIndex g a).indexCount =
          g.indexCount + 6 := by
        simp only [optSegStep]; rw [if_neg h]
      rw [ih, hstep, if_pos (by simp only [decide_eq_true_eq]; exact h), List.length_cons]
      ring

/-- The pooled segment loop writes exactly 12 position floats per
emitted segment. -/
theorem optSegStep_foldl_positions (ops : FloatOps) (lifetime : ℚ)
    (trail : List TrailPoint) (now : ℚ) (ribbonIndex : ℕ) (g : RibbonGeom) (l : List ℕ) :
    (l.foldl (optSegStep ops lifetime trail now ribbonIndex) g).positions.length =
      g.positions.length + 12 * (l.filter (fun i =>
        ¬ optAgeFade lifetime now ((trail.getD i defaultTrailPoint).timestamp) ≤ 1 / 100)).length := by
  induction l generalizing g with
  | nil => simp
  | cons a l ih =>
    rw [List.foldl_cons, List.filter_cons]
    by_cases h : optAgeFade lifetime now ((trail.getD a defaultTrailPoint).timestamp) ≤ 1 / 100
    · have hstep : optSegStep ops lifetime trail now ribbonIndex g a = g := by
        simp only [optSegStep]; rw [if_pos h]
      rw [hstep, ih, if_neg (by simp only [decide_eq_true_eq, not_not]; exact h)]
    · have hstep : (optSegStep ops lifetime trail now ribbonIndex g a).positions.length =
          g.positions.length + 12 := by
        simp only [optSegStep]; rw [if_neg h]
        simp
      rw [ih, hstep, if_pos (by simp only [decide_eq_true_eq]; exact h), List.length_cons]
      ring

/-- C4, counterexample.  The claim states that a point with combined
alpha below the `0.01` cutoff contributes no vertices.  In the pooled
variant the skip tests only the *age fade*: with two points of age 3458
(lifetime 3500) the first point's combined alpha is
`(42/3500)·1·0.8 = 0.0096 < 0.01`, yet the rebuild emits its 4
vertices. -/
theorem alpha_cutoff_counterexample :
    segAlphaOpt optTrailLifetime 3458
      [⟨Vec3.zero, Vec3.zero, 0⟩, ⟨⟨0, 0, 1⟩, Vec3.zero, 0⟩] 0 < 1 / 100 ∧
    (updateRibbonGeometry testOps optTrailLifetime
        [⟨Vec3.zero, Vec3.zero, 0⟩, ⟨⟨0, 0, 1⟩, Vec3.zero, 0⟩] 3458 0).map
      (fun g => g.vertexCount) = some 4 := by
  constructor
  · norm_num [segAlphaOpt, optAgeFade, optPositionFade, optTrailLifetime, defaultTrailPoint]
  · rw [updateRibbonGeometry, if_neg (by norm_num)]
    simp only [Option.map_some', vertexCount_withDrawRange]
    rw [optSegStep_foldl_vertexCount]
    norm_num [optAgeFade, optTrailLifetime, defaultTrailPoint, emptyRibbonGeom,
      List.filter_cons, List.filter_nil, List.range_succ, List.range_zero]

/-- C4, amended.  In `ProperRibbons` a path point whose combined alpha
is below the `0.01` cutoff contributes no vertices, and the emitted
vertex count is the deterministic count of passing points (6 position
floats each).  In the pooled variant the skip tests only the age fade
(`ageFade ≤ 0.01`), so the deterministic vertex count is 4 per segment
whose *age fade* passes — a point whose combined alpha is below the
cutoff can still emit vertices there (see the counterexample). -/
theorem alpha_cutoff_amended (ops : FloatOps) :
    (∀ (path : List PathPoint) (now : ℚ) (baseColor : Vec3),
      (properBuildFromPath ops path now baseColor).positions.length =
        6 * ((List.range path.length).filter (fun i =>
          ¬ prAlpha now path.length i ((path.getD i ⟨Vec3.zero, 0⟩).timestamp) < 1 / 100)).length) ∧
    (∀ (lifetime : ℚ) (trail : List TrailPoint) (now : ℚ) (ribbonIndex : ℕ),
      2 ≤ trail.length →
      (updateRibbonGeometry ops lifetime trail now ribbonIndex).map (fun g => g.vertexCount) =
        some (4 * ((List.range (trail.length - 1)).filter (fun i =>
          ¬ optAgeFade lifetime now ((trail.getD i defaultTrailPoint).timestamp) ≤ 1 / 100)).length)) := by
  constructor
  · intro path now baseColor
    unfold properBuildFromPath
    rw [prStep_foldl_length]
    simp
  · intro lifetime trail now ribbonIndex hlen
    rw [updateRibbonGeometry, if_neg (by omega)]
    simp only [Option.map_some', vertexCount_withDrawRange]
    rw [optSegStep_foldl_vertexCount]
    simp [emptyRibbonGeom]

/-- Witness for the amended C4: both count formulas applied at a
concrete two-point trail. -/
theorem alpha_cutoff_amended_witness :
    (properBuildFromPath testOps [⟨Vec3.zero, 0⟩, ⟨⟨0, 0, 1⟩, 0⟩] 0 ⟨1, 1, 1⟩).positions.length =
      6 * ((List.range (2 : ℕ)).filter (fun i =>
        ¬ prAlpha 0 ([⟨Vec3.zero, 0⟩, ⟨⟨0, 0, 1⟩, 0⟩] : List PathPoint).length i
          (([⟨Vec3.zero, 0⟩, ⟨⟨0, 0, 1⟩, 0⟩] : List PathPoint).getD i ⟨Vec3.zero, 0⟩).timestamp < 1 / 100)).length ∧
    (updateRibbonGeometry testOps optTrailLifetime
        [⟨Vec3.zero, Vec3.zero, 0⟩, ⟨⟨0, 0, 1⟩, Vec3.zero, 0⟩] 0 0).map (fun g => g.vertexCount) =
      some (4 * ((List.range (1 : ℕ)).filter (fun i =>
        ¬ optAgeFade optTrailLifetime 0
          (([⟨Vec3.zero, Vec3.zero, 0⟩, ⟨⟨0, 0, 1⟩, Vec3.zero, 0⟩] : List TrailPoint).getD i
            defaultTrailPoint).timestamp ≤ 1 / 100)).length) :=
  ⟨(alpha_cutoff_amended testOps).1 [⟨Vec3.zero, 0⟩, ⟨⟨0, 0, 1⟩, 0⟩] 0 ⟨1, 1, 1⟩,
   (alpha_cutoff_amended testOps).2 optTrailLifetime
     [⟨Vec3.zero, Vec3.zero, 0⟩, ⟨⟨0, 0, 1⟩, Vec3.zero, 0⟩] 0 0 (by norm_num)⟩

/-- C5.  Five trail points at `(0,0,0) … (0,0,4)`, one unit apart,
injected 100 ms apart (newest first, so the rebuild happens at
`now = 400`), with lifetime 1000 ms: one ribbon rebuild of the pooled
builder emits exactly 4 segments — 16 vertices (48 position floats) and
24 triangle indices, with the draw range covering all 24 — and the
per-segment alpha is strictly decreasing from the newest point to the
oldest (`[0.8, 0.576, 0.384, 0.224]`).  Holds for every math library
`ops`, since the counts and alphas depend only on rational
arithmetic. -/
theorem end_to_end_scenario (ops : FloatOps) :
    (updateRibbonGeometry ops 1000
        [⟨⟨0, 0, 4⟩, Vec3.zero, 400⟩, ⟨⟨0, 0, 3⟩, Vec3.zero, 300⟩, ⟨⟨0, 0, 2⟩, Vec3.zero, 200⟩,
         ⟨⟨0, 0, 1⟩, Vec3.zero, 100⟩, ⟨⟨0, 0, 0⟩, Vec3.zero, 0⟩] 400 0).map
      (fun g => (g.vertexCount, g.indexCount, g.drawRange, g.positions.length)) =
      some (16, 24, 24, 48) ∧
    (List.range 4).map (segAlphaOpt 1000 400
        [⟨⟨0, 0, 4⟩, Vec3.zero, 400⟩, ⟨⟨0, 0, 3⟩, Vec3.zero, 300⟩, ⟨⟨0, 0, 2⟩, Vec3.zero, 200⟩,
         ⟨⟨0, 0, 1⟩, Vec3.zero, 100⟩, ⟨⟨0, 0, 0⟩, Vec3.zero, 0⟩]) =
      [4 / 5, 72 / 125, 48 / 125, 28 / 125] ∧
    List.Chain' (fun a b => b < a) ((List.range 4).map (segAlphaOpt 1000 400
        [⟨⟨0, 0, 4⟩, Vec3.zero, 400⟩, ⟨⟨0, 0, 3⟩, Vec3.zero, 300⟩, ⟨⟨0, 0, 2⟩, Vec3.zero, 200⟩,
         ⟨⟨0, 0, 1⟩, Vec3.zero, 100⟩, ⟨⟨0, 0, 0⟩, Vec3.zero, 0⟩])) := by
  refine ⟨?_, ?_, ?_⟩
  · rw [updateRibbonGeometry, if_neg (by norm_num)]
    simp only [Option.map_some', vertexCount_withDrawRange, indexCount_withDrawRange,
      positions_withDrawRange, drawRange_withDrawRange]
    rw [optSegStep_foldl_vertexCount, optSegStep_foldl_indexCount, optSegStep_foldl_positions]
    norm_num [optAgeFade, defaultTrailPoint, emptyRibbonGeom, List.filter_cons,
      List.filter_nil, List.range_succ, List.range_zero]
  · rw [(by rfl : List.range 4 = [0, 1, 2, 3])]
    norm_num [segAlphaOpt, optAgeFade, optPositionFade, defaultTrailPoint,
      List.getD_cons_zero, List.getD_cons_succ]
  · rw [(by rfl : List.range 4 = [0, 1, 2, 3])]
    norm_num [segAlphaOpt, optAgeFade, optPositionFade, defaultTrailPoint,
      List.getD_cons_zero, List.getD_cons_succ, List.chain'_cons, List.chain'_singleton]


/-- Cancellation of a common spawn offset added to both segment
endpoints. -/
theorem vec3_sub_add_cancel (a b c : Vec3) :
    Vec3.sub (Vec3.add a c) (Vec3.add b c) = Vec3.sub a b := by
  simp only [Vec3.sub, Vec3.add, Vec3.mk.injEq]
  refine ⟨by ring, by ring, by ring⟩

/-- C6, counterexample.  The claim asserts that for *every* 2-point
trail at distance D the edge-to-edge width at the newest point equals
the configured width `W = 0.25` (up to the taper, which is 1 at
progress 0).  For a purely vertical pair at distance 1 (both alphas
0.8, far above the cutoff) the pooled builder emits the segment but the
width vector degenerates: left and right vertices coincide, so the
squared edge-to-edge distance is `0`, not `W² = 1/16`. -/
theorem two_point_width_counterexample :
    (updateRibbonGeometry testOps optTrailLifetime
        [⟨⟨0, 0, 0⟩, Vec3.zero, 0⟩, ⟨⟨0, 1, 0⟩, Vec3.zero, 0⟩] 0 0).map
      (fun g => (g.vertexCount, Vec3.distSq (vertAt g.positions 0) (vertAt g.positions 1))) =
      some (4, 0) ∧ (0 : ℚ) ≠ (1 / 4) * (1 / 4) := by
  constructor
  · rw [updateRibbonGeometry, if_neg (by norm_num)]
    simp only [Option.map_some', vertexCount_withDrawRange, positions_withDrawRange]
    norm_num [optSegStep, segAlphaOpt, optAgeFade, optPositionFade, defaultTrailPoint,
      emptyRibbonGeom, calculateSpawnOffset, spawnAngles, vlen, testOps, Vec3.lensq,
      normalizeV, Vec3.smul, Vec3.add, Vec3.sub, Vec3.cross, Vec3.up, Vec3.zero, lerpQ,
      vertAt, Vec3.distSq, List.getD_cons_zero, List.getD_cons_succ, List.foldl_cons,
      List.foldl_nil, List.range_succ, List.range_zero]
  · norm_num

/-- C6, amended.  For a 2-point trail whose points share one velocity
and lie at the same height (the counterexample shows a vertical pair
fails), with the newest point's combined alpha above the cutoff and the
library square root exact and positive on the segment's squared length,
one pooled rebuild emits exactly 1 segment — 4 vertices and the 6
indices `[0,1,2,1,3,2]` forming 2 triangles — and the squared
edge-to-edge distance between the left and right vertices at the newest
point (progress 0, taper 1) is exactly `W² = (1/4)²`, for any distance
D between the points. -/
theorem two_point_width_amended (ops : FloatOps) (p0 p1 vshared : Vec3) (ts0 ts1 now : ℚ)
    (ribbonIndex : ℕ)
    (hy : p0.y = p1.y)
    (hL : ops.sqrt (Vec3.lensq (Vec3.sub p1 p0)) * ops.sqrt (Vec3.lensq (Vec3.sub p1 p0)) =
      Vec3.lensq (Vec3.sub p1 p0))
    (hLpos : 0 < ops.sqrt (Vec3.lensq (Vec3.sub p1 p0)))
    (halpha : 1 / 100 <
      segAlphaOpt optTrailLifetime now [⟨p0, vshared, ts0⟩, ⟨p1, vshared, ts1⟩] 0) :
    (updateRibbonGeometry ops optTrailLifetime [⟨p0, vshared, ts0⟩, ⟨p1, vshared, ts1⟩]
        now ribbonIndex).map
      (fun g => (g.vertexCount, g.indexCount, g.indices,
        Vec3.distSq (vertAt g.positions 0) (vertAt g.positions 1))) =
      some (4, 6, [0, 1, 2, 1, 3, 2], (1 / 4) * (1 / 4)) := by
  have hage : ¬ optAgeFade optTrailLifetime now ts0 ≤ 1 / 100 := by
    have h1 : segAlphaOpt optTrailLifetime now [⟨p0, vshared, ts0⟩, ⟨p1, vshared, ts1⟩] 0 =
        optAgeFade optTrailLifetime now ts0 * 1 * (4 / 5) := by
      norm_num [segAlphaOpt, optPositionFade, defaultTrailPoint, List.getD_cons_zero]
    rw [h1] at halpha
    intro hcon
    linarith
  rw [updateRibbonGeometry, if_neg (by norm_num)]
  rw [(by rfl :
    List.range (([⟨p0, vshared, ts0⟩, ⟨p1, vshared, ts1⟩] : List TrailPoint).length - 1) = [0])]
  simp only [List.foldl_cons, List.foldl_nil, Option.map_some']
  simp only [optSegStep, List.getD_cons_zero, List.getD_cons_succ]
  rw [if_neg hage]
  rw [vec3_sub_add_cancel]
  simp only [normalizeV, vlen]
  rw [if_neg (ne_of_gt hLpos)]
  simp only [emptyRibbonGeom, List.nil_append, List.length_cons, List.length_nil,
    vertAt, List.getD_cons_zero, List.getD_cons_succ, Vec3.smul, Vec3.add,
    Vec3.distSq, Vec3.lensq, Vec3.sub, Prod.mk.injEq, Option.some.injEq]
  norm_num
  simp only [Vec3.lensq, Vec3.sub] at hL hLpos
  have hdy : p1.y - p0.y = 0 := by rw [hy]; ring
  have hne : ops.sqrt ((p1.x - p0.x) * (p1.x - p0.x) + (p1.y - p0.y) * (p1.y - p0.y) +
      (p1.z - p0.z) * (p1.z - p0.z)) ≠ 0 := ne_of_gt hLpos
  field_simp
  linear_combination (-64 : ℚ) * hL + (-64 : ℚ) * (p1.y - p0.y) * hdy

/-- Witness for the amended C6: a horizontal unit-distance pair on the
executable stub. -/
theorem two_point_width_amended_witness :
    (updateRibbonGeometry testOps optTrailLifetime
        [⟨⟨0, 0, 0⟩, Vec3.zero, 0⟩, ⟨⟨1, 0, 0⟩, Vec3.zero, 0⟩] 0 0).map
      (fun g => (g.vertexCount, g.indexCount, g.indices,
        Vec3.distSq (vertAt g.positions 0) (vertAt g.positions 1))) =
      some (4, 6, [0, 1, 2, 1, 3, 2], (1 / 4) * (1 / 4)) :=
  two_point_width_amended testOps ⟨0, 0, 0⟩ ⟨1, 0, 0⟩ Vec3.zero 0 0 0 0 rfl
    (by norm_num [testOps, Vec3.lensq, Vec3.sub])
    (by norm_num [testOps, Vec3.lensq, Vec3.sub])
    (by norm_num [segAlphaOpt, optAgeFade, optPositionFade, defaultTrailPoint,
      optTrailLifetime, List.getD_cons_zero])

/-- The length-truncation after an `unshift` keeps the new head when
the maximum is positive. -/
theorem truncate_cons (a : TrailPoint) (l : List TrailPoint) (n : ℕ) (hn : 0 < n) :
    ∃ rest, (if (a :: l).length > n then (a :: l).take n else a :: l) = a :: rest := by
  split
  · cases n with
    | zero => omega
    | succ m => exact ⟨l.take m, rfl⟩
  · exact ⟨l, rfl⟩

/-- Age pruning keeps a point that is younger than the lifetime. -/
theorem pruneStep_cons_fresh (lifetime t : ℚ) (p : TrailPoint) (l : List TrailPoint)
    (hp : t - p.timestamp < lifetime) :
    pruneStep lifetime t (p :: l) = p :: pruneStep lifetime t l := by
  unfold pruneStep
  rw [List.filter_cons, if_pos (by simpa using hp)]

/-- When the movement distance reaches the threshold,
`updateTrailHistory` prepends a fresh point, remembers the position and
reports the trail as updated. -/
theorem updateTrailHistory_record (ops : FloatOps) (trail : List TrailPoint)
    (lastPos pos : Vec3) (delta t : ℚ)
    (hge : optMovementThreshold ≤ vdist ops pos lastPos) :
    ∃ v rest, updateTrailHistory ops trail lastPos pos delta t =
      ({ position := pos, velocity := v, timestamp := t } :: rest, pos, true) := by
  have hng : ¬ vdist ops pos lastPos < optMovementThreshold := not_lt.mpr hge
  simp only [updateTrailHistory, if_neg hng]
  obtain ⟨rest, hrest⟩ := truncate_cons
    { position := pos,
      velocity := if delta > 0 then Vec3.smul (1 / delta) (Vec3.sub pos lastPos)
        else Vec3.sub pos lastPos, timestamp := t } trail optMaxTrailPoints
    (by norm_num [optMaxTrailPoints])
  exact ⟨_, rest, by rw [hrest]⟩

/-- C8, counterexample.  The claim states that age-based pruning runs
on every frame.  On a frame whose incremented counter is not divisible
by `UPDATE_FREQUENCY = 3` and with no qualifying movement, the pooled
variant skips pruning entirely: a point of age 4000 ms (lifetime
3500 ms) survives the frame. -/
theorem subsample_counterexample :
    (0 + 1) % optUpdateFrequency ≠ 0 ∧
    optTrailLifetime ≤ 4000 - (0 : ℚ) ∧
    (optFrame testOps true ⟨[⟨Vec3.zero, Vec3.zero, 0⟩], Vec3.zero, 0, true, [0, 0, 0, 0]⟩
      Vec3.zero (1 / 60) 4000).trail = [⟨Vec3.zero, Vec3.zero, 0⟩] := by
  refine ⟨by norm_num [optUpdateFrequency], by norm_num [optTrailLifetime], ?_⟩
  norm_num [optFrame, updateTrailHistory, vdist, testOps, Vec3.distSq, Vec3.lensq,
    Vec3.sub, Vec3.zero, optMovementThreshold, optUpdateFrequency]

/-- C8, amended.  In the pooled variant: a trail sample is recorded on
every enabled tick with qualifying movement, independent of the frame
counter (conjunct 1); on a tick whose incremented counter is not
divisible by 3 and without a recorded sample neither pruning nor a
rebuild happens — trail and draw ranges are untouched (conjunct 2);
age-based pruning (together with the geometry rebuild) runs exactly on
the ticks where the incremented counter is divisible by 3 (conjunct 3)
*or* a sample was recorded (conjunct 4, which also refutes "rebuilt
only every Nth tick"); count-based truncation happens on insert
(conjunct 5). -/
theorem subsample_amended (ops : FloatOps) :
    (∀ (s : OptState) (pos : Vec3) (delta t : ℚ),
      s.initDone = true → optMovementThreshold ≤ vdist ops pos s.lastPosition →
      ∃ v, (optFrame ops true s pos delta t).trail.head? =
        some { position := pos, velocity := v, timestamp := t }) ∧
    (∀ (s : OptState) (pos : Vec3) (delta t : ℚ),
      s.initDone = true → (s.frameCounter + 1) % optUpdateFrequency ≠ 0 →
      vdist ops pos s.lastPosition < optMovementThreshold →
      (optFrame ops true s pos delta t).trail = s.trail ∧
      (optFrame ops true s pos delta t).drawRanges = s.drawRanges) ∧
    (∀ (s : OptState) (pos : Vec3) (delta t : ℚ),
      s.initDone = true → (s.frameCounter + 1) % optUpdateFrequency = 0 →
      ∀ p ∈ (optFrame ops true s pos delta t).trail, t - p.timestamp < optTrailLifetime) ∧
    (∀ (s : OptState) (pos : Vec3) (delta t : ℚ),
      s.initDone = true → optMovementThreshold ≤ vdist ops pos s.lastPosition →
      ∀ p ∈ (optFrame ops true s pos delta t).trail, t - p.timestamp < optTrailLifetime) ∧
    (∀ (trail : List TrailPoint) (lastPos pos : Vec3) (delta t : ℚ),
      (updateTrailHistory ops trail lastPos pos delta t).1.length ≤
        max trail.length optMaxTrailPoints) := by
  refine ⟨?_, ?_, ?_, ?_, ?_⟩
  · intro s pos delta t hinit hge
    obtain ⟨v, rest, hrec⟩ :=
      updateTrailHistory_record ops s.trail s.lastPosition pos delta t hge
    refine ⟨v, ?_⟩
    unfold optFrame
    rw [hinit]
    simp only [Bool.not_true, Bool.false_eq_true, if_false, hrec, eq_self_iff_true,
      or_true, if_true]
    rw [pruneStep_cons_fresh _ _ _ _ (by norm_num [optTrailLifetime])]
    rfl
  · intro s pos delta t hinit hmod hlt
    unfold optFrame
    rw [hinit]
    simp only [Bool.not_true, Bool.false_eq_true, if_false, updateTrailHistory,
      if_pos hlt, or_false]
    rw [if_neg hmod]
    exact ⟨rfl, rfl⟩
  · intro s pos delta t hinit hmod
    unfold optFrame
    rw [hinit]
    simp only [Bool.not_true, Bool.false_eq_true, if_false]
    rw [if_pos (Or.inl hmod)]
    intro p hp
    exact (mem_pruneStep hp).2
  · intro s pos delta t hinit hge
    obtain ⟨v, rest, hrec⟩ :=
      updateTrailHistory_record ops s.trail s.lastPosition pos delta t hge
    unfold optFrame
    rw [hinit]
    simp only [Bool.not_true, Bool.false_eq_true, if_false, hrec, eq_self_iff_true,
      or_true, if_true]
    intro p hp
    exact (mem_pruneStep hp).2
  · intro trail lastPos pos delta t
    by_cases hd : vdist ops pos lastPos < optMovementThreshold
    · simp only [updateTrailHistory, if_pos hd]
      exact le_max_left _ _
    · simp only [updateTrailHistory, if_neg hd]
      have key : ∀ np : TrailPoint,
          (if (np :: trail).length > optMaxTrailPoints then
            (np :: trail).take optMaxTrailPoints else np :: trail).length ≤
          max trail.length optMaxTrailPoints := by
        intro np
        split
        next hgt => exact le_trans (List.length_take_le _ _) (le_max_right _ _)
        next hng =>
          simp only [List.length_cons] at hng ⊢
          omega
      exact key _


/-- Witness for the amended C8: all five conjuncts applied at concrete
states on the executable stub. -/
theorem subsample_amended_witness :
    (∃ v, (optFrame testOps true ⟨[], Vec3.zero, 0, true, [0, 0, 0, 0]⟩
        ⟨1, 0, 0⟩ (1 / 60) 9).trail.head? =
      some { position := ⟨1, 0, 0⟩, velocity := v, timestamp := 9 }) ∧
    ((optFrame testOps true ⟨[], Vec3.zero, 0, true, [0, 0, 0, 0]⟩
        Vec3.zero (1 / 60) 9).trail = [] ∧
     (optFrame testOps true ⟨[], Vec3.zero, 0, true, [0, 0, 0, 0]⟩
        Vec3.zero (1 / 60) 9).drawRanges = [0, 0, 0, 0]) ∧
    (∀ p ∈ (optFrame testOps true ⟨[], Vec3.zero, 2, true, [0, 0, 0, 0]⟩
        Vec3.zero (1 / 60) 9).trail, 9 - p.timestamp < optTrailLifetime) ∧
    (∀ p ∈ (optFrame testOps true ⟨[], Vec3.zero, 0, true, [0, 0, 0, 0]⟩
        ⟨1, 0, 0⟩ (1 / 60) 9).trail, 9 - p.timestamp < optTrailLifetime) ∧
    (updateTrailHistory testOps [] Vec3.zero ⟨1, 0, 0⟩ (1 / 60) 9).1.length ≤
      max ([] : List TrailPoint).length optMaxTrailPoints :=
  ⟨(subsample_amended testOps).1 ⟨[], Vec3.zero, 0, true, [0, 0, 0, 0]⟩ ⟨1, 0, 0⟩ (1 / 60) 9
     rfl (by norm_num [vdist, testOps, Vec3.distSq, Vec3.lensq, Vec3.sub, Vec3.zero,
       optMovementThreshold]),
   (subsample_amended testOps).2.1 ⟨[], Vec3.zero, 0, true, [0, 0, 0, 0]⟩ Vec3.zero (1 / 60) 9
     rfl (by norm_num [optUpdateFrequency])
     (by norm_num [vdist, testOps, Vec3.distSq, Vec3.lensq, Vec3.sub, Vec3.zero,
       optMovementThreshold]),
   (subsample_amended testOps).2.2.1 ⟨[], Vec3.zero, 2, true, [0, 0, 0, 0]⟩ Vec3.zero (1 / 60) 9
     rfl (by norm_num [optUpdateFrequency]),
   (subsample_amended testOps).2.2.2.1 ⟨[], Vec3.zero, 0, true, [0, 0, 0, 0]⟩ ⟨1, 0, 0⟩ (1 / 60) 9
     rfl (by norm_num [vdist, testOps, Vec3.distSq, Vec3.lensq, Vec3.sub, Vec3.zero,
       optMovementThreshold]),
   (subsample_amended testOps).2.2.2.2 [] Vec3.zero ⟨1, 0, 0⟩ (1 / 60) 9⟩

/-- Projections of the disable cleanup. -/
theorem optDisable_trail (s : OptState) : (optDisable s).trail = [] := rfl

theorem optDisable_lastPosition (s : OptState) :
    (optDisable s).lastPosition = s.lastPosition := rfl

theorem optDisable_initDone (s : OptState) : (optDisable s).initDone = s.initDone := rfl

/-- C9.  When the external enabled signal becomes false the pooled
effect clears its buffer and zeroes every draw range (conjunct 1);
while disabled the frame callback is the identity — nothing is
recorded and no geometry is rebuilt (conjunct 2); after re-enabling,
the first frame with a qualifying movement sample records again
starting from the empty buffer: the trail becomes exactly the single
new point (conjunct 3). -/
theorem disable_enable_cycle (ops : FloatOps) :
    (∀ s : OptState, (optDisable s).trail = [] ∧
      ∀ r ∈ (optDisable s).drawRanges, r = 0) ∧
    (∀ (s : OptState) (pos : Vec3) (delta t : ℚ), optFrame ops false s pos delta t = s) ∧
    (∀ (s : OptState) (pos : Vec3) (delta t : ℚ),
      s.initDone = true → optMovementThreshold ≤ vdist ops pos s.lastPosition →
      ∃ v, (optFrame ops true (optDisable s) pos delta t).trail =
        [{ position := pos, velocity := v, timestamp := t }]) := by
  refine ⟨?_, ?_, ?_⟩
  · intro s
    exact ⟨rfl, by simp [optDisable]⟩
  · intro s pos delta t
    rfl
  · intro s pos delta t hinit hge
    have hng : ¬ vdist ops pos s.lastPosition < optMovementThreshold := not_lt.mpr hge
    refine ⟨if delta > 0 then Vec3.smul (1 / delta) (Vec3.sub pos s.lastPosition)
        else Vec3.sub pos s.lastPosition, ?_⟩
    unfold optFrame
    rw [optDisable_initDone, hinit]
    simp only [Bool.not_true, Bool.false_eq_true, if_false, optDisable_trail,
      optDisable_lastPosition]
    have hrec : updateTrailHistory ops [] s.lastPosition pos delta t =
        ([{ position := pos,
            velocity := if delta > 0 then Vec3.smul (1 / delta) (Vec3.sub pos s.lastPosition)
              else Vec3.sub pos s.lastPosition, timestamp := t }], pos, true) := by
      simp only [updateTrailHistory, if_neg hng]
      rw [if_neg (by norm_num [optMaxTrailPoints])]
    rw [hrec]
    simp only [eq_self_iff_true, or_true, if_true]
    rw [pruneStep_cons_fresh _ _ _ _ (by norm_num [optTrailLifetime])]
    rfl

/-- Witness for C9 at a concrete pre-disable state. -/
theorem disable_enable_cycle_witness :
    ((optDisable ⟨[⟨Vec3.zero, Vec3.zero, 0⟩], ⟨2, 0, 0⟩, 5, true, [7, 7, 7, 7]⟩).trail = [] ∧
      ∀ r ∈ (optDisable ⟨[⟨Vec3.zero, Vec3.zero, 0⟩], ⟨2, 0, 0⟩, 5, true,
        [7, 7, 7, 7]⟩).drawRanges, r = 0) ∧
    optFrame testOps false ⟨[⟨Vec3.zero, Vec3.zero, 0⟩], ⟨2, 0, 0⟩, 5, true, [7, 7, 7, 7]⟩
        ⟨1, 0, 0⟩ (1 / 60) 9 =
      ⟨[⟨Vec3.zero, Vec3.zero, 0⟩], ⟨2, 0, 0⟩, 5, true, [7, 7, 7, 7]⟩ ∧
    ∃ v, (optFrame testOps true
        (optDisable ⟨[⟨Vec3.zero, Vec3.zero, 0⟩], ⟨2, 0, 0⟩, 5, true, [7, 7, 7, 7]⟩)
        ⟨1, 0, 0⟩ (1 / 60) 9).trail =
      [{ position := ⟨1, 0, 0⟩, velocity := v, timestamp := 9 }] :=
  ⟨(disable_enable_cycle testOps).1 _,
   (disable_enable_cycle testOps).2.1 _ _ _ _,
   (disable_enable_cycle testOps).2.2 _ ⟨1, 0, 0⟩ (1 / 60) 9 rfl
     (by norm_num [vdist, testOps, Vec3.distSq, Vec3.lensq, Vec3.sub, optMovementThreshold])⟩

/-- C10, failing input.  The `SpeedTrails` builder joins each emitted
segment forward to the *next* point's vertices before knowing whether
that point survives the alpha cutoff.  On a fresh 3-point trail the
last point's position fade is 0, so it is skipped: the rebuild writes
only 4 vertices (12 floats) yet emits the index list
`[0,1,2,1,3,2,2,3,4,3,5,4]`, whose entries 4 and 5 are outside
`0 ≤ index < vertexCount` — refuting the claim on the code as written
(the other two builders never do this). -/
theorem index_out_of_range_bug :
    (speedBuildRibbon testOps
        [⟨⟨0, 0, 2⟩, Vec3.zero, 0⟩, ⟨⟨0, 0, 1⟩, Vec3.zero, 0⟩, ⟨⟨0, 0, 0⟩, Vec3.zero, 0⟩]
        0 0 ⟨1, 1, 1⟩).positions.length = 12 ∧
    (speedBuildRibbon testOps
        [⟨⟨0, 0, 2⟩, Vec3.zero, 0⟩, ⟨⟨0, 0, 1⟩, Vec3.zero, 0⟩, ⟨⟨0, 0, 0⟩, Vec3.zero, 0⟩]
        0 0 ⟨1, 1, 1⟩).indices = [0, 1, 2, 1, 3, 2, 2, 3, 4, 3, 5, 4] ∧
    ¬ ∀ ix ∈ (speedBuildRibbon testOps
        [⟨⟨0, 0, 2⟩, Vec3.zero, 0⟩, ⟨⟨0, 0, 1⟩, Vec3.zero, 0⟩, ⟨⟨0, 0, 0⟩, Vec3.zero, 0⟩]
        0 0 ⟨1, 1, 1⟩).indices,
      ix < (speedBuildRibbon testOps
        [⟨⟨0, 0, 2⟩, Vec3.zero, 0⟩, ⟨⟨0, 0, 1⟩, Vec3.zero, 0⟩, ⟨⟨0, 0, 0⟩, Vec3.zero, 0⟩]
        0 0 ⟨1, 1, 1⟩).positions.length / 3 := by
  norm_num [speedBuildRibbon, speedBuildPath, getSpawnPoints, stStep, stAlpha, vlen,
    testOps, Vec3.lensq, normalizeV, Vec3.neg, Vec3.smul, Vec3.add, Vec3.sub, Vec3.cross,
    Vec3.up, Vec3.zero, stTrailLifetime, stRibbonCount, List.foldl_cons, List.foldl_nil,
    List.range_succ, List.range_zero, List.filterMap_cons, List.filterMap_nil,
    List.map_cons, List.map_nil, List.getElem?_cons_zero, List.getElem?_cons_succ,
    List.getD_cons_zero, List.getD_cons_succ, Option.map_some, List.mem_cons]

end Ribbons

